import Mathlib

/-!
Shallow embedding of the bridge engine of this repository: the
TCP-to-RS485 bridge (`brokk_bridge.py`, class `BrokkBridge`) and the
thread-per-direction TCP forwarder (`tcp_forwarder.py`).  Byte strings
are modelled as `List Nat`; fallible I/O calls are modelled by explicit
result values supplied by the environment, and the stateful loops by
recursion over a finite script of environment events.
-/

namespace Bridge

/-- Result of one read call on an endpoint.  `data []` is a successful
zero-byte read; `wouldBlock` models `BlockingIOError`/`InterruptedError`
raised by the call; `ioError` models the other caught exceptions
(`ConnectionResetError`, `BrokenPipeError`, `OSError`, generic
`Exception`). -/
inductive ReadResult
  | data (bs : List Nat)
  | wouldBlock
  | ioError (msg : String)
deriving DecidableEq

/-- Result of one full-drain send call (`sock.sendall`): success,
`BlockingIOError`/`InterruptedError`, or another I/O exception. -/
inductive SendResult
  | ok
  | wouldBlock
  | ioError (msg : String)
deriving DecidableEq

/-- `BrokkBridge._handle_tcp_data` (brokk_bridge.py lines 162-192).
Input: the outcome of `self.sock.recv_into` and the behaviour of
`self.ser.write` (`none` = returned normally, `some e` = raised `e`;
the serial port is opened with `write_timeout=None`, so a write that
returns has written the whole chunk).  Output: the boolean the method
returns (`true` = keep the session running) paired with the bytes
delivered to the serial destination by this call. -/
def handle_tcp_data (recvRes : ReadResult) (serWrite : List Nat → Option String) :
    Bool × List Nat :=
  match recvRes with
  | ReadResult.wouldBlock => (true, [])
  | ReadResult.ioError _ => (false, [])
  | ReadResult.data bs =>
    if bs.length = 0 then (false, [])
    else
      match serWrite bs with
      | some _ => (false, [])
      | none => (true, bs)

/-- `BrokkBridge._handle_serial_data` (brokk_bridge.py lines 194-219).
Input: the outcome of `self.ser.read` (a successful read of zero bytes
is `data []`; a `BlockingIOError` raised inside the `try` block is
`wouldBlock`, any other exception `ioError`) and the behaviour of
`self.sock.sendall` on the bytes read.  Output: the boolean the method
returns paired with the bytes delivered to the TCP destination. -/
def handle_serial_data (readRes : ReadResult) (sendall : List Nat → SendResult) :
    Bool × List Nat :=
  match readRes with
  | ReadResult.wouldBlock => (false, [])
  | ReadResult.ioError _ => (false, [])
  | ReadResult.data bs =>
    if bs.length = 0 then (true, [])
    else
      match sendall bs with
      | SendResult.ok => (true, bs)
      | SendResult.wouldBlock => (false, [])
      | SendResult.ioError _ => (false, [])

/-- One readiness event returned by `selector.select`: the TCP socket or
the serial port is ready, together with the outcome of the read the
handler then performs. -/
inductive ReadyEv
  | tcpReady (r : ReadResult)
  | serialReady (r : ReadResult)
deriving DecidableEq

/-- The `for key, _ in events` dispatch loop inside
`BrokkBridge.run_bridge_loop` (brokk_bridge.py lines 232-238): each
ready event is handled in order; the first handler that returns `False`
aborts the loop.  Returns (keep running, bytes to serial, bytes to TCP). -/
def processEvents (serWrite : List Nat → Option String) (sendall : List Nat → SendResult) :
    List ReadyEv → Bool × List Nat × List Nat
  | [] => (true, [], [])
  | ReadyEv.tcpReady r :: rest =>
      let h := handle_tcp_data r serWrite
      if h.1 then
        let k := processEvents serWrite sendall rest
        (k.1, h.2 ++ k.2.1, k.2.2)
      else (false, h.2, [])
  | ReadyEv.serialReady r :: rest =>
      let h := handle_serial_data r sendall
      if h.1 then
        let k := processEvents serWrite sendall rest
        (k.1, k.2.1, h.2 ++ k.2.2)
      else (false, [], h.2)

/-- The timeout, in seconds, passed to `self.selector.select`
(brokk_bridge.py line 230: `timeout=1.0`). -/
def select_timeout : Nat := 1

/-- `BrokkBridge.run_bridge_loop` (brokk_bridge.py lines 221-244),
driven by a finite script: each script entry is the value of the
`self.running` flag sampled at the `while` test together with the
readiness events delivered by that iteration's `select` call.  Result:
`some b` when the loop returned `b` within the script (`true` = the
`while` condition became false, `false` = a handler failed), `none`
when the script was exhausted with the loop still running; paired with
all bytes forwarded to the serial side and to the TCP side. -/
def run_bridge_loop (serWrite : List Nat → Option String) (sendall : List Nat → SendResult) :
    List (Bool × List ReadyEv) → Option Bool × List Nat × List Nat
  | [] => (none, [], [])
  | (running, evs) :: rest =>
      if running then
        let p := processEvents serWrite sendall evs
        if p.1 then
          let k := run_bridge_loop serWrite sendall rest
          (k.1, p.2.1 ++ k.2.1, p.2.2 ++ k.2.2)
        else (some false, p.2.1, p.2.2)
      else (some true, [], [])

/-- The resource state of a `BrokkBridge` instance: whether `self.sock`
and `self.ser` are set, whether the serial object reports
`is_open`, and how many times `close()` has been invoked on each
underlying handle. -/
structure BridgeState where
  sockPresent : Bool
  serPresent : Bool
  serIsOpen : Bool
  sockCloseCount : Nat
  serCloseCount : Nat
deriving DecidableEq

/-- `BrokkBridge._cleanup` (brokk_bridge.py lines 137-160): if
`self.sock` is set, unregister and close it (each wrapped in
`try/except` that swallows every exception) and set it to `None`; if
`self.ser` is set, unregister it, close it only when `is_open`, and set
it to `None`.  The method itself never raises, which is why it is total
here. -/
def cleanup (s : BridgeState) : BridgeState :=
  let s1 :=
    if s.sockPresent then
      { s with sockPresent := false, sockCloseCount := s.sockCloseCount + 1 }
    else s
  if s1.serPresent then
    if s1.serIsOpen then
      { s1 with serPresent := false, serIsOpen := false,
                serCloseCount := s1.serCloseCount + 1 }
    else { s1 with serPresent := false }
  else s1

/-- The session portion of `BrokkBridge.run` (brokk_bridge.py lines
266-271): run the bridge loop to completion, then call `_cleanup`.
When the loop script is exhausted before the loop returns, the session
has not ended and the state is unchanged. -/
def brokkSession (serWrite : List Nat → Option String) (sendall : List Nat → SendResult)
    (script : List (Bool × List ReadyEv)) (st : BridgeState) :
    Option Bool × BridgeState :=
  match (run_bridge_loop serWrite sendall script).1 with
  | some b => (some b, cleanup st)
  | none => (none, st)

/-- The constant `self.reconnect_delay` set in `BrokkBridge.__init__`
(brokk_bridge.py line 40) and never reassigned. -/
def reconnect_delay : Nat := 5

/-- One iteration of the outer `while self.running` loop of
`BrokkBridge.run` (brokk_bridge.py lines 252-286), as seen by the
environment: the TCP connect failed, the TCP connect succeeded but the
serial open failed, or both opens succeeded and the bridge session ran
to its end (`success` = value returned by `run_bridge_loop`,
`stopRequested` = `not self.running` observed after the session). -/
inductive Attempt
  | dialFail
  | serialOpenFail
  | sessionEnd (success : Bool) (stopRequested : Bool)
deriving DecidableEq

/-- Observable events of `BrokkBridge.run`: a `time.sleep` of the given
number of seconds, the "Bridge active" point where forwarding starts,
and process exit with the given status. -/
inductive TraceEv
  | sleep (seconds : Nat)
  | active
  | exit (code : Nat)
deriving DecidableEq

/-- The outcome of `BrokkBridge.run`: its event trace, whether the TCP
socket and the serial port are still open when `run` returns, and the
returned exit status. -/
structure RunOutcome where
  trace : List TraceEv
  finalSock : Bool
  finalSer : Bool
  code : Nat
deriving DecidableEq

/-- `BrokkBridge.run` (brokk_bridge.py lines 246-290), driven by a
script of attempt outcomes.  An exhausted script models `self.running`
observed false at the `while` test: final `_cleanup`, return 0.
`dialFail`: lines 256-259, sleep `reconnect_delay` and retry.
`serialOpenFail`: lines 262-264, `return 1` immediately — no `_cleanup`
runs on this path, so the TCP socket opened just before stays open.
`sessionEnd`: lines 266-278, `_cleanup` closes both endpoints; then
break (final `_cleanup`, return 0) when a stop was requested, otherwise
sleep `reconnect_delay` before retrying when the loop failed. -/
def bridgeRun : List Attempt → RunOutcome
  | [] => { trace := [TraceEv.exit 0], finalSock := false, finalSer := false, code := 0 }
  | Attempt.dialFail :: rest =>
      let r := bridgeRun rest
      { r with trace := TraceEv.sleep reconnect_delay :: r.trace }
  | Attempt.serialOpenFail :: _ =>
      { trace := [TraceEv.exit 1], finalSock := true, finalSer := false, code := 1 }
  | Attempt.sessionEnd success stop :: rest =>
      if stop then
        { trace := [TraceEv.active, TraceEv.exit 0],
          finalSock := false, finalSer := false, code := 0 }
      else if success then
        let r := bridgeRun rest
        { r with trace := TraceEv.active :: r.trace }
      else
        let r := bridgeRun rest
        { r with trace := TraceEv.active :: TraceEv.sleep reconnect_delay :: r.trace }

/-- One event seen by `forward_data` of tcp_forwarder.py: a successful
`source.recv(8192)` returning the given bytes (`[]` = remote closed),
or `recv` raising an exception. -/
inductive TcpEvent
  | bytes (data : List Nat)
  | recvError (msg : String)
deriving DecidableEq

/-- What a terminated `forward_data` call has done: the bytes delivered
to the destination via `sendall`, and whether the `finally` block shut
down the source's read half and the destination's write half. -/
structure FwdOutcome where
  sent : List Nat
  srcShutRd : Bool
  dstShutWr : Bool
deriving DecidableEq

/-- `forward_data` of tcp_forwarder.py (lines 29-49): loop reading from
the source; a zero-byte read breaks out, a recv or sendall exception
leaves via the `except` clause; in every terminating case the `finally`
block runs `source.shutdown(SHUT_RD)` and `destination.shutdown(SHUT_WR)`
(their own errors swallowed).  `none` means the script ran out with the
loop still blocked in `recv`, so the `finally` block has not run yet. -/
def forward_data (sendall : List Nat → SendResult) : List TcpEvent → Option FwdOutcome
  | [] => none
  | TcpEvent.bytes d :: rest =>
      if d = [] then some { sent := [], srcShutRd := true, dstShutWr := true }
      else
        match sendall d with
        | SendResult.ok =>
            match forward_data sendall rest with
            | some r => some { r with sent := d ++ r.sent }
            | none => none
        | SendResult.wouldBlock => some { sent := [], srcShutRd := true, dstShutWr := true }
        | SendResult.ioError _ => some { sent := [], srcShutRd := true, dstShutWr := true }
  | TcpEvent.recvError _ :: _ => some { sent := [], srcShutRd := true, dstShutWr := true }

/-- Upper-case hexadecimal digit, as produced by Python's `X` format. -/
def hexDigit (n : Nat) : Char :=
  if n < 10 then Char.ofNat (48 + n) else Char.ofNat (55 + n)

/-- One byte rendered as two hexadecimal digits (`f'\x7bb:02X\x7d'`). -/
def byteHex (b : Nat) : String :=
  String.mk [hexDigit (b / 16), hexDigit (b % 16)]

/-- `BrokkBridge._hex_preview` (brokk_bridge.py lines 52-58): join the
two-digit hex of the first `limit` bytes with single spaces; when the
data is longer than `limit`, append a suffix giving the total length.
The call sites use the default `limit=64`. -/
def hex_preview (data : List Nat) (limit : Nat) : String :=
  let preview := data.take limit
  let hexStr := String.intercalate " " (preview.map byteHex)
  if data.length > limit then
    hexStr ++ "... (" ++ toString data.length ++ " bytes total)"
  else hexStr

/-- A log event for one forwarded chunk: the byte count it reports and
the full message text. -/
structure LogRecord where
  count : Nat
  message : String
deriving DecidableEq

/-- The debug log emitted by `_handle_tcp_data` for a non-empty chunk
(brokk_bridge.py lines 181-184), as a function of the `log_hex`
configuration flag. -/
def tcp_log (logHex : Bool) (data : List Nat) : LogRecord :=
  if logHex then
    { count := data.length,
      message := "TCP → RS485 (" ++ toString data.length ++ " bytes): "
        ++ hex_preview data 64 }
  else
    { count := data.length,
      message := "TCP → RS485 (" ++ toString data.length ++ " bytes)" }

end Bridge

namespace Bridge

/-- C2: a zero-byte read with no error from the serial source is idle:
`_handle_serial_data` returns `True` (keep running) and forwards
nothing; a zero-byte read from the TCP source that is not a would-block
is a graceful remote close: `_handle_tcp_data` returns `False`, while a
TCP would-block read returns `True`; and `forward_data` of
tcp_forwarder.py terminates its pump on a zero-byte `recv`. -/
theorem c2_zero_byte_read (sendall sendall2 : List Nat → SendResult)
    (serWrite : List Nat → Option String) (rest : List TcpEvent) :
    handle_serial_data (ReadResult.data []) sendall = (true, []) ∧
    handle_tcp_data (ReadResult.data []) serWrite = (false, []) ∧
    handle_tcp_data ReadResult.wouldBlock serWrite = (true, []) ∧
    forward_data sendall2 (TcpEvent.bytes [] :: rest)
      = some { sent := [], srcShutRd := true, dstShutWr := true } :=
  ⟨rfl, rfl, rfl, rfl⟩

/-- C4: a TCP dial failure only adds one retry-delay sleep and the run
continues exactly as on the remaining attempts (the process never
terminates for it), a serial-port open failure makes `run` return exit
status 1 at once with no further attempts, and an externally requested
stop — whether observed after a session or at the top of the loop —
yields exit status 0. -/
theorem c4_dial_retried_serial_fatal (rest : List Attempt) (ok : Bool) :
    (bridgeRun (Attempt.dialFail :: rest)).code = (bridgeRun rest).code ∧
    (bridgeRun (Attempt.dialFail :: rest)).trace
      = TraceEv.sleep reconnect_delay :: (bridgeRun rest).trace ∧
    (bridgeRun (Attempt.serialOpenFail :: rest)).code = 1 ∧
    (bridgeRun (Attempt.serialOpenFail :: rest)).trace = [TraceEv.exit 1] ∧
    (bridgeRun (Attempt.sessionEnd ok true :: rest)).code = 0 ∧
    (bridgeRun []).code = 0 :=
  ⟨rfl, rfl, rfl, rfl, by simp [bridgeRun], rfl⟩

/-- C5 (counterexample): the claim that a WouldBlock on write does not
terminate the session is false — one loop iteration in which the serial
handler's `sock.sendall` raises `BlockingIOError` makes
`run_bridge_loop` return `False`, ending the session, and the blocked
chunk is not delivered. -/
theorem c5_counterexample :
    run_bridge_loop (fun _ => none) (fun _ => SendResult.wouldBlock)
      [(true, [ReadyEv.serialReady (ReadResult.data [1])])]
      = (some false, [], []) :=
  rfl

/-- C5 (amended): a WouldBlock on the TCP read path makes
`_handle_tcp_data` return `True` (yield, session keeps running), but a
WouldBlock raised by the TCP write (`sock.sendall`) on a non-empty
serial chunk makes `_handle_serial_data` return `False`, which
terminates the session. -/
theorem c5_wouldblock_read_vs_write (serWrite : List Nat → Option String)
    (bs : List Nat) (h : bs ≠ []) :
    handle_tcp_data ReadResult.wouldBlock serWrite = (true, []) ∧
    handle_serial_data (ReadResult.data bs) (fun _ => SendResult.wouldBlock)
      = (false, []) := by
  refine ⟨rfl, ?_⟩
  simp [handle_serial_data, List.length_eq_zero, h]

/-- C5 (witness): the amended statement at the concrete chunk `[1]`. -/
theorem c5_wouldblock_witness :
    ([1] : List Nat) ≠ [] ∧
    (handle_tcp_data ReadResult.wouldBlock (fun _ => none) = (true, []) ∧
      handle_serial_data (ReadResult.data [1]) (fun _ => SendResult.wouldBlock)
        = (false, [])) :=
  ⟨by decide, c5_wouldblock_read_vs_write (fun _ => none) [1] (by decide)⟩

/-- C6 (counterexample): on the attempt where the TCP connect succeeded
and the serial open then failed, `run` returns exit status 1 with the
TCP socket still open — the claim that the first endpoint is closed
before the Supervisor leaves the attempt is false. -/
theorem c6_counterexample :
    (bridgeRun [Attempt.serialOpenFail]).finalSock = true ∧
    (bridgeRun [Attempt.serialOpenFail]).code = 1 :=
  ⟨rfl, rfl⟩

/-- C6 (amended): when the serial open fails after the TCP socket was
opened, the Supervisor immediately returns exit status 1 for the whole
process; no cleanup runs on that path, so the already-open TCP socket
is left open (released only by process termination). -/
theorem c6_serial_fail_leaves_socket_open (rest : List Attempt) :
    bridgeRun (Attempt.serialOpenFail :: rest)
      = { trace := [TraceEv.exit 1], finalSock := true, finalSer := false,
          code := 1 } :=
  rfl

/-- C8: `_cleanup` is idempotent — a second invocation is a no-op, each
invocation closes each underlying handle at most once, and the second
invocation never closes either handle again (and, being built from
`try/except` blocks that swallow all errors, it never raises, which the
embedding reflects by totality). -/
theorem c8_idempotent_cleanup (s : BridgeState) :
    cleanup (cleanup s) = cleanup s ∧
    (cleanup s).sockCloseCount ≤ s.sockCloseCount + 1 ∧
    (cleanup s).serCloseCount ≤ s.serCloseCount + 1 ∧
    (cleanup (cleanup s)).sockCloseCount = (cleanup s).sockCloseCount ∧
    (cleanup (cleanup s)).serCloseCount = (cleanup s).serCloseCount := by
  obtain ⟨sp, srp, sio, a, b⟩ := s
  cases sp <;> cases srp <;> cases sio <;> simp [cleanup]

/-- C9: the stop flag is sampled at the top of every bridge-loop
iteration, so an iteration that observes it false returns `True`
immediately without touching the delivered events; the readiness wait
is bounded by the 1-second `select` timeout; and the session path then
runs `_cleanup`, leaving both endpoints closed. -/
theorem c9_stop_latency (serWrite : List Nat → Option String)
    (sendall : List Nat → SendResult) (evs : List ReadyEv)
    (rest : List (Bool × List ReadyEv)) (st : BridgeState) :
    run_bridge_loop serWrite sendall ((false, evs) :: rest)
      = (some true, [], []) ∧
    select_timeout = 1 ∧
    (brokkSession serWrite sendall ((false, evs) :: rest) st).2.sockPresent
      = false ∧
    (brokkSession serWrite sendall ((false, evs) :: rest) st).2.serPresent
      = false := by
  refine ⟨rfl, rfl, ?_, ?_⟩ <;>
  · obtain ⟨sp, srp, sio, a, b⟩ := st
    cases sp <;> cases srp <;> cases sio <;> rfl

end Bridge

namespace Bridge

/-- C1: for any chunking of the source stream into non-empty chunks,
the multiplexed bridge loop delivers to the serial destination exactly
the concatenation of the chunks in order (each chunk written whole by
`ser.write` before the next read), and `forward_data` of
tcp_forwarder.py delivers to its destination exactly the concatenation
of the chunks in order before terminating on the remote close. -/
theorem c1_no_loss_no_reorder (chunks : List (List Nat))
    (h : ∀ c ∈ chunks, c ≠ []) :
    run_bridge_loop (fun _ => none) (fun _ => SendResult.ok)
        (chunks.map (fun c => (true, [ReadyEv.tcpReady (ReadResult.data c)])))
      = (none, chunks.flatten, []) ∧
    forward_data (fun _ => SendResult.ok)
        (chunks.map TcpEvent.bytes ++ [TcpEvent.bytes []])
      = some { sent := chunks.flatten, srcShutRd := true, dstShutWr := true } := by
  induction chunks with
  | nil => exact ⟨rfl, rfl⟩
  | cons c cs ih =>
      have hc : c ≠ [] := h c (by simp)
      have hcs : ∀ x ∈ cs, x ≠ [] := fun x hx => h x (by simp [hx])
      obtain ⟨ih1, ih2⟩ := ih hcs
      refine ⟨?_, ?_⟩
      · simp [run_bridge_loop, processEvents, handle_tcp_data,
          List.length_eq_zero, hc, ih1]
      · simp [forward_data, hc, ih2]

/-- C1 (witness): the chunking `[1,2]`, `[3,4,5]` is delivered as
`[1,2,3,4,5]` by both variants. -/
theorem c1_witness :
    run_bridge_loop (fun _ => none) (fun _ => SendResult.ok)
        ([[1, 2], [3, 4, 5]].map (fun c => (true, [ReadyEv.tcpReady (ReadResult.data c)])))
      = (none, [1, 2, 3, 4, 5], []) ∧
    forward_data (fun _ => SendResult.ok)
        ([[1, 2], [3, 4, 5]].map TcpEvent.bytes ++ [TcpEvent.bytes []])
      = some { sent := [1, 2, 3, 4, 5], srcShutRd := true, dstShutWr := true } := by
  have h := c1_no_loss_no_reorder [[1, 2], [3, 4, 5]] (by decide)
  simpa using h

/-- C3: whenever a `forward_data` pump of tcp_forwarder.py terminates
(for any reason), its `finally` block has shut down the source's read
half and the destination's write half — unblocking the sibling
direction's blocking read — and whenever the multiplexed bridge session
ends (for any reason), `_cleanup` has run, so neither endpoint is still
held open. -/
theorem c3_session_teardown :
    (∀ (sendall : List Nat → SendResult) (script : List TcpEvent) (r : FwdOutcome),
        forward_data sendall script = some r →
        r.srcShutRd = true ∧ r.dstShutWr = true) ∧
    (∀ (serWrite : List Nat → Option String) (sendall : List Nat → SendResult)
        (script : List (Bool × List ReadyEv)) (st : BridgeState) (b : Bool),
        (brokkSession serWrite sendall script st).1 = some b →
        (brokkSession serWrite sendall script st).2.sockPresent = false ∧
        (brokkSession serWrite sendall script st).2.serPresent = false) := by
  constructor
  · intro sendall script
    induction script with
    | nil => intro r hr; simp [forward_data] at hr
    | cons ev rest ih =>
        intro r hr
        cases ev with
        | recvError m =>
            simp [forward_data] at hr
            simp [← hr]
        | bytes d =>
            by_cases hd : d = []
            · simp [forward_data, hd] at hr
              simp [← hr]
            · cases hsd : sendall d with
              | ok =>
                  cases hfd : forward_data sendall rest with
                  | none => simp [forward_data, hd, hsd, hfd] at hr
                  | some r' =>
                      simp [forward_data, hd, hsd, hfd] at hr
                      have := ih r' hfd
                      simp [← hr, this.1, this.2]
              | wouldBlock =>
                  simp [forward_data, hd, hsd] at hr
                  simp [← hr]
              | ioError m =>
                  simp [forward_data, hd, hsd] at hr
                  simp [← hr]
  · intro serWrite sendall script st b hb
    unfold brokkSession at hb ⊢
    cases hr : (run_bridge_loop serWrite sendall script).1 with
    | none => rw [hr] at hb; simp at hb
    | some c =>
        obtain ⟨sp, srp, sio, x, y⟩ := st
        cases sp <;> cases srp <;> cases sio <;> simp [cleanup]

/-- C3 (witness): the teardown facts at a concrete terminating script
for each variant. -/
theorem c3_witness :
    forward_data (fun _ => SendResult.ok) [TcpEvent.bytes []]
      = some { sent := [], srcShutRd := true, dstShutWr := true } ∧
    (({ sent := [], srcShutRd := true, dstShutWr := true } : FwdOutcome).srcShutRd
        = true ∧
      ({ sent := [], srcShutRd := true, dstShutWr := true } : FwdOutcome).dstShutWr
        = true) ∧
    (brokkSession (fun _ => none) (fun _ => SendResult.ok) [(false, [])]
        { sockPresent := true, serPresent := true, serIsOpen := true,
          sockCloseCount := 0, serCloseCount := 0 }).1 = some true ∧
    ((brokkSession (fun _ => none) (fun _ => SendResult.ok) [(false, [])]
        { sockPresent := true, serPresent := true, serIsOpen := true,
          sockCloseCount := 0, serCloseCount := 0 }).2.sockPresent = false ∧
      (brokkSession (fun _ => none) (fun _ => SendResult.ok) [(false, [])]
        { sockPresent := true, serPresent := true, serIsOpen := true,
          sockCloseCount := 0, serCloseCount := 0 }).2.serPresent = false) :=
  ⟨rfl,
    c3_session_teardown.1 (fun _ => SendResult.ok) [TcpEvent.bytes []]
      { sent := [], srcShutRd := true, dstShutWr := true } rfl,
    rfl,
    c3_session_teardown.2 (fun _ => none) (fun _ => SendResult.ok) [(false, [])]
      { sockPresent := true, serPresent := true, serIsOpen := true,
        sockCloseCount := 0, serCloseCount := 0 } true rfl⟩

end Bridge

namespace Bridge

/-- Every sleep in any trace of `BrokkBridge.run` has the constant
duration `reconnect_delay`: the delay never escalates. -/
theorem bridgeRun_sleep_constant :
    ∀ (script : List Attempt) (d : Nat),
      TraceEv.sleep d ∈ (bridgeRun script).trace → d = reconnect_delay := by
  intro script
  induction script with
  | nil => intro d hd; simp [bridgeRun] at hd
  | cons a rest ih =>
      intro d hd
      cases a with
      | dialFail =>
          simp [bridgeRun] at hd
          rcases hd with h | h
          · exact h
          · exact ih d h
      | serialOpenFail => simp [bridgeRun] at hd
      | sessionEnd s stop =>
          cases stop with
          | true => simp [bridgeRun] at hd
          | false =>
              cases s with
              | true =>
                  simp [bridgeRun] at hd
                  exact ih d hd
              | false =>
                  simp [bridgeRun] at hd
                  rcases hd with h | h
                  · exact h
                  · exact ih d h

/-- A run whose first `k` attempts are dial failures and whose
`(k+1)`-st attempt starts a session begins with exactly `k` backoff
sleeps followed by the activation point. -/
theorem bridgeRun_backoff_prefix (ok stop : Bool) (rest : List Attempt) :
    ∀ k : Nat,
      (bridgeRun (List.replicate k Attempt.dialFail
          ++ Attempt.sessionEnd ok stop :: rest)).trace.take (k + 1)
        = List.replicate k (TraceEv.sleep reconnect_delay) ++ [TraceEv.active] := by
  intro k
  induction k with
  | zero => cases ok <;> cases stop <;> simp [bridgeRun]
  | succ n ih => simp [List.replicate_succ, bridgeRun, ih]

/-- C7: the retry delay is the constant 5 seconds — every sleep in
every run trace has duration `reconnect_delay = 5` — and a run whose
first `k` connection attempts fail to dial and whose next attempt
succeeds reaches the active bridging point after exactly `k` backoff
sleeps of that constant delay. -/
theorem c7_constant_backoff (k : Nat) (ok stop : Bool) (rest script : List Attempt)
    (d : Nat) (h : TraceEv.sleep d ∈ (bridgeRun script).trace) :
    reconnect_delay = 5 ∧
    d = reconnect_delay ∧
    (bridgeRun (List.replicate k Attempt.dialFail
        ++ Attempt.sessionEnd ok stop :: rest)).trace.take (k + 1)
      = List.replicate k (TraceEv.sleep reconnect_delay) ++ [TraceEv.active] :=
  ⟨rfl, bridgeRun_sleep_constant script d h, bridgeRun_backoff_prefix ok stop rest k⟩

/-- C7 (witness): the run unreachable for 2 attempts and reachable on
the third sleeps twice for 5 seconds and then becomes active. -/
theorem c7_witness :
    TraceEv.sleep 5 ∈ (bridgeRun [Attempt.dialFail]).trace ∧
    (reconnect_delay = 5 ∧
      (5 : Nat) = reconnect_delay ∧
      (bridgeRun (List.replicate 2 Attempt.dialFail
          ++ Attempt.sessionEnd false true :: [])).trace.take (2 + 1)
        = List.replicate 2 (TraceEv.sleep reconnect_delay) ++ [TraceEv.active]) :=
  ⟨by decide, c7_constant_backoff 2 false true [] [Attempt.dialFail] 5 (by decide)⟩

/-- C10: for a non-empty forwarded chunk with trace mode on, the log
record reports exactly the chunk's byte count and carries the hex
preview; the preview covers exactly the first `min n 64` bytes; when
the chunk fits in the 64-byte bound the preview is precisely the
space-separated two-digit hex pairs of the whole chunk; and every
rendered pair is two characters wide. -/
theorem c10_hex_trace (data : List Nat) (_h : data ≠ []) :
    tcp_log true data =
      { count := data.length,
        message := "TCP → RS485 (" ++ toString data.length ++ " bytes): "
          ++ hex_preview data 64 } ∧
    (data.take 64).length = min data.length 64 ∧
    (data.length ≤ 64 →
      hex_preview data 64 = String.intercalate " " (data.map byteHex)) ∧
    (∀ b : Nat, (byteHex b).length = 2) := by
  refine ⟨rfl, ?_, ?_, fun b => rfl⟩
  · simp [List.length_take, Nat.min_comm]
  · intro hle
    simp only [hex_preview]
    rw [List.take_of_length_le hle, if_neg (by omega)]

/-- C10 (witness): the concrete chunk `01 02 03 04` is logged with
byte count exactly 4 and hex preview `01 02 03 04`. -/
theorem c10_witness :
    ([1, 2, 3, 4] : List Nat) ≠ [] ∧
    hex_preview [1, 2, 3, 4] 64
      = String.intercalate " " ([1, 2, 3, 4].map byteHex) ∧
    tcp_log true [1, 2, 3, 4]
      = { count := 4, message := "TCP → RS485 (4 bytes): 01 02 03 04" } := by
  have h := c10_hex_trace [1, 2, 3, 4] (by decide)
  exact ⟨by decide, h.2.2.1 (by decide), by decide⟩

end Bridge
